import Mathlib

/-
Verification of the WebRTC ingest/egress session subsystem
(src/unnamed/part_000 and src/internal/core/webrtc_room.go).

The Go code is shallowly embedded: pure control flow becomes Lean
functions, channel-driven loops become functions over explicit event
lists, and the outcome of each fallible external step (broker, peer
connection engine, SDP negotiation) is an explicit input of the model.
-/

set_option maxRecDepth 4096

/- ### Candidate apply loop (src/unnamed/part_000, readRemoteCandidates, lines 643-659) -/

/-- Payload of one response written to an AddCandidatesReq envelope:
`some e` is an error response, `none` is the empty success response. -/
abbrev AddCandidatesResponse := Option String

/-- Responses written to a single AddCandidatesReq envelope by the candidate
apply loop (readRemoteCandidates, one iteration of the outer select):
for each candidate in the request it calls AddICECandidate (abstracted by
`applyICE`); on failure it writes the error response and keeps looping over
the remaining candidates; after the loop it writes one empty success
response.  The returned list is the sequence of writes, in order. -/
def readRemoteCandidatesResponses (applyICE : String → Option String) :
    List String → List AddCandidatesResponse
  | [] => [none]
  | c :: cs =>
    match applyICE c with
    | some e => some e :: readRemoteCandidatesResponses applyICE cs
    | none => readRemoteCandidatesResponses applyICE cs

/- ### Incoming-track gathering (src/unnamed/part_000, webrtcGatherIncomingTracks, lines 144-181) -/

/-- A received remote track, abstracted to an identifier.  The codec
validation done by newWebRTCIncomingTrack (whose file is not under src/) is
abstracted into the `Except` carried by the arrival event. -/
structure webRTCIncomingTrack where
  id : Nat
deriving DecidableEq

deriving instance DecidableEq for Except

/-- One event observed by the gather select loop: the gather-timeout timer
firing, an arrival on the track channel (carrying the result of
newWebRTCIncomingTrack), peer disconnection, or context cancellation. -/
inductive GatherEvent where
  | deadline : GatherEvent
  | arrival : Except String webRTCIncomingTrack → GatherEvent
  | disconnected : GatherEvent
  | cancelled : GatherEvent
deriving DecidableEq

/-- Result of the gather loop. -/
inductive GatherResult where
  | collected : List webRTCIncomingTrack → GatherResult
  | deadlineExceeded : GatherResult
  | trackFailed : String → GatherResult
  | peerConnClosed : GatherResult
  | terminated : GatherResult
deriving DecidableEq

/-- The select loop of webrtcGatherIncomingTracks, processing the events in
order with `tracks` the accumulator.  `none` means the loop is still blocked
waiting for a further event. -/
def webrtcGatherIncomingTracksLoop (trackCount : Nat)
    (tracks : List webRTCIncomingTrack) :
    List GatherEvent → Option GatherResult
  | [] => none
  | GatherEvent.deadline :: _ =>
      if trackCount = 0 then some (GatherResult.collected tracks)
      else some GatherResult.deadlineExceeded
  | GatherEvent.arrival (Except.error e) :: _ =>
      some (GatherResult.trackFailed e)
  | GatherEvent.arrival (Except.ok t) :: evs =>
      if (tracks ++ [t]).length = trackCount then
        some (GatherResult.collected (tracks ++ [t]))
      else webrtcGatherIncomingTracksLoop trackCount (tracks ++ [t]) evs
  | GatherEvent.disconnected :: _ => some GatherResult.peerConnClosed
  | GatherEvent.cancelled :: _ => some GatherResult.terminated

/-- webrtcGatherIncomingTracks: run the gather loop from the empty
accumulator. -/
def webrtcGatherIncomingTracks (trackCount : Nat) (events : List GatherEvent) :
    Option GatherResult :=
  webrtcGatherIncomingTracksLoop trackCount [] events

/- ### Track counting from the offer SDP (src/unnamed/part_000, webrtcTrackCount, lines 109-142) -/

/-- Media kind of one SDP media descriptor (media.MediaName.Media); the
source switches on the strings "video", "audio", "application" with a
default case for anything else. -/
inductive MediaKind where
  | video : MediaKind
  | audio : MediaKind
  | app : MediaKind
  | other : String → MediaKind
deriving DecidableEq

/-- Errors of webrtcTrackCount.  `singleAVOnly` stands for the message
"only a single video and a single audio track are supported",
`singleDataChanOnly` for "only a single data channel track is supported",
`unsupportedMedia m` for the unsupported-media message naming `m`. -/
inductive TrackCountErr where
  | singleAVOnly : TrackCountErr
  | singleDataChanOnly : TrackCountErr
  | unsupportedMedia : String → TrackCountErr
deriving DecidableEq

/-- The loop of webrtcTrackCount: `v`, `a`, `d` are the videoTrack,
audioTrack and dataChan flags, `n` the running trackCount. -/
def webrtcTrackCountLoop :
    List MediaKind → Bool → Bool → Bool → Nat → Except TrackCountErr Nat
  | [], _, _, _, n => Except.ok n
  | MediaKind.video :: ms, v, a, d, n =>
      if v then Except.error TrackCountErr.singleAVOnly
      else webrtcTrackCountLoop ms true a d (n + 1)
  | MediaKind.audio :: ms, v, a, d, n =>
      if a then Except.error TrackCountErr.singleAVOnly
      else webrtcTrackCountLoop ms v true d (n + 1)
  | MediaKind.app :: ms, v, a, d, n =>
      if d then Except.error TrackCountErr.singleDataChanOnly
      else webrtcTrackCountLoop ms v a true n
  | MediaKind.other s :: _, _, _, _, _ =>
      Except.error (TrackCountErr.unsupportedMedia s)

/-- webrtcTrackCount: fold over the media descriptors starting with all
flags clear and count zero. -/
def webrtcTrackCount (ms : List MediaKind) : Except TrackCountErr Nat :=
  webrtcTrackCountLoop ms false false false 0

/-- Number of video media sections in a descriptor list. -/
def countVideo : List MediaKind → Nat
  | [] => 0
  | MediaKind.video :: ms => countVideo ms + 1
  | _ :: ms => countVideo ms

/-- Number of audio media sections in a descriptor list. -/
def countAudio : List MediaKind → Nat
  | [] => 0
  | MediaKind.audio :: ms => countAudio ms + 1
  | _ :: ms => countAudio ms

/-- Number of application media sections in a descriptor list. -/
def countApp : List MediaKind → Nat
  | [] => 0
  | MediaKind.app :: ms => countApp ms + 1
  | _ :: ms => countApp ms

/-- Number of non-application media sections in a descriptor list. -/
def countNonApp : List MediaKind → Nat
  | [] => 0
  | MediaKind.app :: ms => countNonApp ms
  | _ :: ms => countNonApp ms + 1

/-- A media kind the webrtcTrackCount switch accepts. -/
def mediaAllowed : MediaKind → Bool
  | MediaKind.other _ => false
  | _ => true

/-- The validity condition of webrtcTrackCount: at most one video, audio and
application section each, and no other media type. -/
def validMedias (ms : List MediaKind) : Prop :=
  countVideo ms ≤ 1 ∧ countAudio ms ≤ 1 ∧ countApp ms ≤ 1 ∧
    ∀ m ∈ ms, mediaAllowed m = true

instance (ms : List MediaKind) : Decidable (validMedias ms) := by
  unfold validMedias
  exact inferInstance

/-- True exactly on `Except.ok` results. -/
def exceptOk {ε α : Type} : Except ε α → Bool
  | Except.ok _ => true
  | Except.error _ => false

theorem webrtcTrackCountLoop_ok (ms : List MediaKind) :
    ∀ (v a d : Bool) (n : Nat),
      countVideo ms ≤ 1 → (v = true → countVideo ms = 0) →
      countAudio ms ≤ 1 → (a = true → countAudio ms = 0) →
      countApp ms ≤ 1 → (d = true → countApp ms = 0) →
      (∀ m ∈ ms, mediaAllowed m = true) →
      webrtcTrackCountLoop ms v a d n = Except.ok (n + countNonApp ms) := by
  induction ms with
  | nil =>
    intro v a d n _ _ _ _ _ _ _
    simp [webrtcTrackCountLoop, countNonApp]
  | cons m ms ih =>
    intro v a d n hv hv0 ha ha0 hd hd0 hall
    have hallms : ∀ m ∈ ms, mediaAllowed m = true :=
      fun x hx => hall x (List.mem_cons_of_mem m hx)
    cases m with
    | video =>
      simp only [countVideo] at hv hv0
      simp only [countAudio] at ha ha0
      simp only [countApp] at hd hd0
      cases v with
      | true => have := hv0 rfl; omega
      | false =>
        simp only [webrtcTrackCountLoop, Bool.false_eq_true, if_false]
        rw [ih true a d (n + 1) (by omega) (fun _ => by omega) ha ha0 hd hd0 hallms]
        simp only [countNonApp]
        congr 1
        omega
    | audio =>
      simp only [countVideo] at hv hv0
      simp only [countAudio] at ha ha0
      simp only [countApp] at hd hd0
      cases a with
      | true => have := ha0 rfl; omega
      | false =>
        simp only [webrtcTrackCountLoop, Bool.false_eq_true, if_false]
        rw [ih v true d (n + 1) hv hv0 (by omega) (fun _ => by omega) hd hd0 hallms]
        simp only [countNonApp]
        congr 1
        omega
    | app =>
      simp only [countVideo] at hv hv0
      simp only [countAudio] at ha ha0
      simp only [countApp] at hd hd0
      cases d with
      | true => have := hd0 rfl; omega
      | false =>
        simp only [webrtcTrackCountLoop, Bool.false_eq_true, if_false]
        rw [ih v a true n hv hv0 ha ha0 (by omega) (fun _ => by omega) hallms]
        simp only [countNonApp]
    | other s =>
      have := hall (MediaKind.other s) (List.mem_cons_self _ _)
      simp [mediaAllowed] at this

theorem webrtcTrackCountLoop_ok_valid (ms : List MediaKind) :
    ∀ (v a d : Bool) (n : Nat),
      exceptOk (webrtcTrackCountLoop ms v a d n) = true →
      countVideo ms ≤ 1 ∧ (v = true → countVideo ms = 0) ∧
      countAudio ms ≤ 1 ∧ (a = true → countAudio ms = 0) ∧
      countApp ms ≤ 1 ∧ (d = true → countApp ms = 0) ∧
      ∀ m ∈ ms, mediaAllowed m = true := by
  induction ms with
  | nil =>
    intro v a d n _
    simp [countVideo, countAudio, countApp]
  | cons m ms ih =>
    intro v a d n h
    cases m with
    | video =>
      cases v with
      | true => simp [webrtcTrackCountLoop, exceptOk] at h
      | false =>
        simp only [webrtcTrackCountLoop, Bool.false_eq_true, if_false] at h
        obtain ⟨h1, h2, h3, h4, h5, h6, h7⟩ := ih true a d (n + 1) h
        have hz := h2 rfl
        simp only [countVideo, countAudio, countApp]
        refine ⟨by omega, (fun hf => nomatch hf), h3, h4, h5, h6, ?_⟩
        intro x hx
        rcases List.mem_cons.mp hx with rfl | hx2
        · rfl
        · exact h7 x hx2
    | audio =>
      cases a with
      | true => simp [webrtcTrackCountLoop, exceptOk] at h
      | false =>
        simp only [webrtcTrackCountLoop, Bool.false_eq_true, if_false] at h
        obtain ⟨h1, h2, h3, h4, h5, h6, h7⟩ := ih v true d (n + 1) h
        have hz := h4 rfl
        simp only [countVideo, countAudio, countApp]
        refine ⟨h1, h2, by omega, (fun hf => nomatch hf), h5, h6, ?_⟩
        intro x hx
        rcases List.mem_cons.mp hx with rfl | hx2
        · rfl
        · exact h7 x hx2
    | app =>
      cases d with
      | true => simp [webrtcTrackCountLoop, exceptOk] at h
      | false =>
        simp only [webrtcTrackCountLoop, Bool.false_eq_true, if_false] at h
        obtain ⟨h1, h2, h3, h4, h5, h6, h7⟩ := ih v a true n h
        have hz := h6 rfl
        simp only [countVideo, countAudio, countApp]
        refine ⟨h1, h2, h3, h4, by omega, (fun hf => nomatch hf), ?_⟩
        intro x hx
        rcases List.mem_cons.mp hx with rfl | hx2
        · rfl
        · exact h7 x hx2
    | other s =>
      simp [webrtcTrackCountLoop, exceptOk] at h

/-- C4: webrtcTrackCount returns the number of non-application media
sections whenever the list has at most one video, one audio and one
application section and no other media type; it returns an error on any
duplicate of these kinds or on any other media type; and the returned
count may be zero (a descriptor list with only an application section
yields zero). -/
theorem webrtcTrackCount_spec :
    (∀ ms : List MediaKind, validMedias ms →
      webrtcTrackCount ms = Except.ok (countNonApp ms)) ∧
    (∀ ms : List MediaKind, ¬ validMedias ms →
      exceptOk (webrtcTrackCount ms) = false) ∧
    webrtcTrackCount [MediaKind.app] = Except.ok 0 := by
  refine ⟨fun ms h => ?_, fun ms h => ?_, by decide⟩
  · obtain ⟨h1, h2, h3, h4⟩ := h
    have := webrtcTrackCountLoop_ok ms false false false 0
      h1 (by intro hf; cases hf) h2 (by intro hf; cases hf) h3 (by intro hf; cases hf) h4
    simpa [webrtcTrackCount] using this
  · by_contra hne
    have hok : exceptOk (webrtcTrackCount ms) = true := by
      cases hcase : exceptOk (webrtcTrackCount ms) with
      | true => rfl
      | false => exact absurd hcase hne
    obtain ⟨h1, _, h3, _, h5, _, h7⟩ :=
      webrtcTrackCountLoop_ok_valid ms false false false 0 hok
    exact h ⟨h1, h3, h5, h7⟩

/-- Witness for webrtcTrackCount_spec at concrete inputs. -/
theorem webrtcTrackCount_spec_witness :
    webrtcTrackCount [MediaKind.video, MediaKind.audio, MediaKind.app] =
      Except.ok (countNonApp [MediaKind.video, MediaKind.audio, MediaKind.app]) ∧
    exceptOk (webrtcTrackCount [MediaKind.video, MediaKind.video]) = false :=
  ⟨webrtcTrackCount_spec.1 [MediaKind.video, MediaKind.audio, MediaKind.app] (by decide),
   webrtcTrackCount_spec.2.1 [MediaKind.video, MediaKind.video] (by decide)⟩

/- ### C1: the candidate apply loop writes two responses on error -/

/-- C1 (code bug): in the candidate apply loop, an envelope with one
candidate for which AddICECandidate fails receives TWO responses: the error
response written inside the loop, and then also the empty success response
written after the loop, because readRemoteCandidates does not break or
return after writing the error.  The spec requires at most one response per
envelope. -/
theorem readRemoteCandidates_double_response :
    readRemoteCandidatesResponses (fun _ => some "invalid candidate")
      ["candidate0"] = [some "invalid candidate", none] ∧
    (readRemoteCandidatesResponses (fun _ => some "invalid candidate")
      ["candidate0"]).length = 2 :=
  ⟨rfl, rfl⟩

/- ### C2: gather deadline behaviour -/

/-- C2 counterexample: with trackCount = 0, if a track arrives before the
gather deadline fires, the gather returns that non-empty track list, not
the empty list the claim promises for every deadline firing with
trackCount zero. -/
theorem gatherIncomingTracks_zero_nonempty :
    webrtcGatherIncomingTracks 0
      [GatherEvent.arrival (Except.ok ⟨0⟩), GatherEvent.deadline] =
      some (GatherResult.collected [⟨0⟩]) ∧
    ([⟨0⟩] : List webRTCIncomingTrack) ≠ [] :=
  ⟨rfl, by decide⟩

/-- C2 amended: when the deadline fires and trackCount is zero the gather
returns the tracks accumulated so far with no error (the empty list when no
track arrived before the deadline); when the deadline fires with
0 < trackCount and fewer than trackCount tracks accumulated, it fails with
the deadline-exceeded error; and the gather returns successfully exactly
when the trackCount-th track arrives. -/
theorem gatherIncomingTracks_deadline_spec :
    (∀ (acc : List webRTCIncomingTrack) (evs : List GatherEvent),
      webrtcGatherIncomingTracksLoop 0 acc (GatherEvent.deadline :: evs) =
        some (GatherResult.collected acc)) ∧
    (∀ (tc : Nat) (acc : List webRTCIncomingTrack) (evs : List GatherEvent),
      0 < tc → acc.length < tc →
      webrtcGatherIncomingTracksLoop tc acc (GatherEvent.deadline :: evs) =
        some GatherResult.deadlineExceeded) ∧
    (∀ (tc : Nat) (acc : List webRTCIncomingTrack) (t : webRTCIncomingTrack)
        (evs : List GatherEvent),
      acc.length + 1 = tc →
      webrtcGatherIncomingTracksLoop tc acc
        (GatherEvent.arrival (Except.ok t) :: evs) =
        some (GatherResult.collected (acc ++ [t]))) ∧
    webrtcGatherIncomingTracks 0 [GatherEvent.deadline] =
      some (GatherResult.collected []) := by
  refine ⟨fun acc evs => rfl, fun tc acc evs h1 h2 => ?_,
    fun tc acc t evs h => ?_, rfl⟩
  · have htc : tc ≠ 0 := by omega
    simp [webrtcGatherIncomingTracksLoop, htc]
  · have hlen : (acc ++ [t]).length = tc := by
      simp only [List.length_append, List.length_cons, List.length_nil]
      omega
    simp [webrtcGatherIncomingTracksLoop, hlen]

/-- Witness for gatherIncomingTracks_deadline_spec at concrete inputs. -/
theorem gatherIncomingTracks_deadline_spec_witness :
    webrtcGatherIncomingTracksLoop 2 [⟨0⟩] [GatherEvent.deadline] =
      some GatherResult.deadlineExceeded ∧
    webrtcGatherIncomingTracksLoop 1 [] [GatherEvent.arrival (Except.ok ⟨5⟩)] =
      some (GatherResult.collected [⟨5⟩]) :=
  ⟨gatherIncomingTracks_deadline_spec.2.1 2 [⟨0⟩] [] (by decide) (by decide),
   gatherIncomingTracks_deadline_spec.2.2.1 1 [] ⟨5⟩ [] (by decide)⟩

/- ### Outgoing-track gathering (src/unnamed/part_000, webrtcGatherOutgoingTracks, lines 80-107) -/

/-- Codec of one media of the source stream.  The supported families are the
ones named by the error message of webrtcGatherOutgoingTracks. -/
inductive Codec where
  | av1 : Codec
  | vp9 : Codec
  | vp8 : Codec
  | h264 : Codec
  | opus : Codec
  | g722 : Codec
  | g711 : Codec
  | other : String → Codec
deriving DecidableEq

/-- Supported video codec families. -/
def isSupportedVideoCodec : Codec → Bool
  | Codec.av1 => true
  | Codec.vp9 => true
  | Codec.vp8 => true
  | Codec.h264 => true
  | _ => false

/-- Supported audio codec families. -/
def isSupportedAudioCodec : Codec → Bool
  | Codec.opus => true
  | Codec.g722 => true
  | Codec.g711 => true
  | _ => false

/-- An outgoing track, reduced to the codec it was built for. -/
structure webRTCOutgoingTrack where
  codec : Codec
deriving DecidableEq

/-- Modelled from the spec: `newWebRTCOutgoingTrackVideo` is not under src/
(only its caller webrtcGatherOutgoingTracks is); spec section 4.2 says the
gather scans the source stream's media list for the first supported video
codec, which produces one outgoing track, and produces nothing otherwise. -/
def newWebRTCOutgoingTrackVideo (medias : List Codec) :
    Option webRTCOutgoingTrack :=
  (medias.find? isSupportedVideoCodec).map (fun c => ⟨c⟩)

/-- Modelled from the spec: `newWebRTCOutgoingTrackAudio` is not under src/;
spec section 4.2 says the gather scans the source stream's media list for
the first supported audio codec, which produces one outgoing track, and
produces nothing otherwise. -/
def newWebRTCOutgoingTrackAudio (medias : List Codec) :
    Option webRTCOutgoingTrack :=
  (medias.find? isSupportedAudioCodec).map (fun c => ⟨c⟩)

/-- Error of webrtcGatherOutgoingTracks; its single constructor stands for
the message naming the supported codecs AV1, VP9, VP8, H264, Opus, G722,
G711 (src lines 101-104). -/
inductive GatherOutErr where
  | noSupportedCodec : GatherOutErr
deriving DecidableEq

/-- webrtcGatherOutgoingTracks: append the video track if any, then the
audio track if any; if the track list stayed nil, fail with the
supported-codec error. -/
def webrtcGatherOutgoingTracks (medias : List Codec) :
    Except GatherOutErr (List webRTCOutgoingTrack) :=
  let tracks := (newWebRTCOutgoingTrackVideo medias).toList ++
    (newWebRTCOutgoingTrackAudio medias).toList
  if tracks.isEmpty then Except.error GatherOutErr.noSupportedCodec
  else Except.ok tracks

/- ### Session run model (src/unnamed/part_000, runInner/runPublish/runRead, lines 273-634) -/

/-- A broker (path manager) error: `isAuth` models the dynamic type test
against errAuthentication, `msg` the error message. -/
structure BrokerErr where
  isAuth : Bool
  msg : List Char
deriving DecidableEq

/-- Prefix test on character lists, modelling strings.HasPrefix. -/
def goHasPrefixOf (pre : List Char) : List Char → Bool
  | s =>
    match pre, s with
    | [], _ => true
    | _ :: _, [] => false
    | p :: ps, c :: cs => p == c && goHasPrefixOf ps cs

/-- The message prefix that runRead maps to HTTP 404. -/
def noOnePublishing : List Char := "no one is publishing".data

/-- Outcome of one complete pass of runPublish or runRead, as observed by
runInner: whether the pause after an authentication error ran, whether
writeAnswer was called, whether the pc field was published into the session
state, and the returned errStatusCode (0 when no HTTP status is attached to
the error). -/
structure RunOutcome where
  slept : Bool := false
  answerWritten : Bool := false
  pcSet : Bool := false
  code : Nat := 0
deriving DecidableEq

/-- Outcomes of the fallible steps of runPublish, in source order.  A `true`
in a `...Failed` field means that step returned an error.  `offerMedias` is
the parsed offer media list handed to webrtcTrackCount. -/
structure PublishEnv where
  addPublisherErr : Option BrokerErr := none
  genICEServersFailed : Bool := false
  pcNewFailed : Bool := false
  sdpUnmarshalFailed : Bool := false
  offerMedias : List MediaKind := []
  addTransceiverVideoFailed : Bool := false
  addTransceiverAudioFailed : Bool := false
  setRemoteDescriptionFailed : Bool := false
  createAnswerFailed : Bool := false
  setLocalDescriptionFailed : Bool := false
  waitGatheringDoneFailed : Bool := false
  waitUntilConnectedFailed : Bool := false
  gatherIncomingFailed : Bool := false
  startPublisherFailed : Bool := false
deriving DecidableEq

/-- Outcome of runPublish when addPublisher returns an error (src lines
314-323): authentication errors sleep webrtcPauseAfterAuthError and return
401, any other broker error returns 400. -/
def publishBrokerOutcome (be : BrokerErr) : RunOutcome :=
  if be.isAuth then { slept := true, code := 401 }
  else { code := 400 }

/-- runPublish after addPublisher succeeded (src lines 327-503): every
pre-answer failure returns a non-zero HTTP status; writeAnswer runs once
WaitGatheringDone succeeded; pc is stored only after
webrtcWaitUntilConnected succeeds; every post-answer failure and the final
disconnect/cancel select return status 0. -/
def runPublishAfterBroker (e : PublishEnv) : RunOutcome :=
  if e.genICEServersFailed then { code := 500 }
  else if e.pcNewFailed then { code := 400 }
  else if e.sdpUnmarshalFailed then { code := 400 }
  else if exceptOk (webrtcTrackCount e.offerMedias) = false then { code := 400 }
  else if e.addTransceiverVideoFailed then { code := 400 }
  else if e.addTransceiverAudioFailed then { code := 400 }
  else if e.setRemoteDescriptionFailed then { code := 400 }
  else if e.createAnswerFailed then { code := 400 }
  else if e.setLocalDescriptionFailed then { code := 400 }
  else if e.waitGatheringDoneFailed then { code := 400 }
  else if e.waitUntilConnectedFailed then { answerWritten := true }
  else if e.gatherIncomingFailed then { answerWritten := true, pcSet := true }
  else if e.startPublisherFailed then { answerWritten := true, pcSet := true }
  else { answerWritten := true, pcSet := true }

/-- runPublish (src lines 299-504). -/
def runPublish (e : PublishEnv) : RunOutcome :=
  match e.addPublisherErr with
  | some be => publishBrokerOutcome be
  | none => runPublishAfterBroker e

/-- Outcomes of the fallible steps of runRead, in source order.
`srcMedias` is the codec list of the source stream's medias, handed to
webrtcGatherOutgoingTracks. -/
structure ReadEnv where
  addReaderErr : Option BrokerErr := none
  srcMedias : List Codec := []
  genICEServersFailed : Bool := false
  pcNewFailed : Bool := false
  addTrackFailed : Bool := false
  setRemoteDescriptionFailed : Bool := false
  createAnswerFailed : Bool := false
  setLocalDescriptionFailed : Bool := false
  waitGatheringDoneFailed : Bool := false
  waitUntilConnectedFailed : Bool := false
deriving DecidableEq

/-- Outcome of runRead when addReader returns an error (src lines 521-534):
authentication errors sleep and return 401, an error message prefixed by
"no one is publishing" returns 404, anything else returns 400. -/
def readBrokerOutcome (be : BrokerErr) : RunOutcome :=
  if be.isAuth then { slept := true, code := 401 }
  else if goHasPrefixOf noOnePublishing be.msg then { code := 404 }
  else { code := 400 }

/-- runRead after addReader succeeded (src lines 538-633): the
outgoing-track gather failure and all other pre-answer failures map to 400
except ICE-server generation (500); post-answer failures and the final
select return status 0. -/
def runReadAfterBroker (e : ReadEnv) : RunOutcome :=
  if exceptOk (webrtcGatherOutgoingTracks e.srcMedias) = false then { code := 400 }
  else if e.genICEServersFailed then { code := 500 }
  else if e.pcNewFailed then { code := 400 }
  else if e.addTrackFailed then { code := 400 }
  else if e.setRemoteDescriptionFailed then { code := 400 }
  else if e.createAnswerFailed then { code := 400 }
  else if e.setLocalDescriptionFailed then { code := 400 }
  else if e.waitGatheringDoneFailed then { code := 400 }
  else if e.waitUntilConnectedFailed then { answerWritten := true }
  else { answerWritten := true, pcSet := true }

/-- runRead (src lines 506-634). -/
def runRead (e : ReadEnv) : RunOutcome :=
  match e.addReaderErr with
  | some be => readBrokerOutcome be
  | none => runReadAfterBroker e

/-- A message on the NewSessionReq response channel: the SDP answer, or an
error with its HTTP status code. -/
inductive NewSessionMsg where
  | answer : NewSessionMsg
  | failure : Nat → NewSessionMsg
deriving DecidableEq

/-- The messages written to the NewSessionReq response channel for one run,
once the envelope was received: writeAnswer writes the answer when it runs,
and the outer frame runInner (src lines 280-287) writes the error exactly
when the returned errStatusCode is non-zero. -/
def sessionResponses (o : RunOutcome) : List NewSessionMsg :=
  (if o.answerWritten then [NewSessionMsg.answer] else []) ++
    (if o.code ≠ 0 then [NewSessionMsg.failure o.code] else [])

/-- Consistency of a run outcome: the answer was written exactly when the
returned status code is zero, and pc was published only if the answer was
written. -/
def outcomeConsistent (o : RunOutcome) : Bool :=
  ((o.answerWritten && o.code == 0) || (!o.answerWritten && !(o.code == 0))) &&
    (!o.pcSet || o.answerWritten)

theorem publishBrokerOutcome_consistent (be : BrokerErr) :
    outcomeConsistent (publishBrokerOutcome be) = true := by
  unfold publishBrokerOutcome
  by_cases hb : be.isAuth = true
  · rw [if_pos hb]; decide
  rw [if_neg hb]; decide

theorem readBrokerOutcome_consistent (be : BrokerErr) :
    outcomeConsistent (readBrokerOutcome be) = true := by
  unfold readBrokerOutcome
  by_cases hb : be.isAuth = true
  · rw [if_pos hb]; decide
  rw [if_neg hb]
  by_cases hp : goHasPrefixOf noOnePublishing be.msg = true
  · rw [if_pos hp]; decide
  rw [if_neg hp]; decide

theorem runPublishAfterBroker_consistent (e : PublishEnv) :
    outcomeConsistent (runPublishAfterBroker e) = true := by
  unfold runPublishAfterBroker
  by_cases h1 : e.genICEServersFailed = true
  · rw [if_pos h1]; decide
  rw [if_neg h1]
  by_cases h2 : e.pcNewFailed = true
  · rw [if_pos h2]; decide
  rw [if_neg h2]
  by_cases h3 : e.sdpUnmarshalFailed = true
  · rw [if_pos h3]; decide
  rw [if_neg h3]
  by_cases h4 : exceptOk (webrtcTrackCount e.offerMedias) = false
  · rw [if_pos h4]; decide
  rw [if_neg h4]
  by_cases h5 : e.addTransceiverVideoFailed = true
  · rw [if_pos h5]; decide
  rw [if_neg h5]
  by_cases h6 : e.addTransceiverAudioFailed = true
  · rw [if_pos h6]; decide
  rw [if_neg h6]
  by_cases h7 : e.setRemoteDescriptionFailed = true
  · rw [if_pos h7]; decide
  rw [if_neg h7]
  by_cases h8 : e.createAnswerFailed = true
  · rw [if_pos h8]; decide
  rw [if_neg h8]
  by_cases h9 : e.setLocalDescriptionFailed = true
  · rw [if_pos h9]; decide
  rw [if_neg h9]
  by_cases h10 : e.waitGatheringDoneFailed = true
  · rw [if_pos h10]; decide
  rw [if_neg h10]
  by_cases h11 : e.waitUntilConnectedFailed = true
  · rw [if_pos h11]; decide
  rw [if_neg h11]
  by_cases h12 : e.gatherIncomingFailed = true
  · rw [if_pos h12]; decide
  rw [if_neg h12]
  by_cases h13 : e.startPublisherFailed = true
  · rw [if_pos h13]; decide
  rw [if_neg h13]
  decide

theorem runReadAfterBroker_consistent (e : ReadEnv) :
    outcomeConsistent (runReadAfterBroker e) = true := by
  unfold runReadAfterBroker
  by_cases h1 : exceptOk (webrtcGatherOutgoingTracks e.srcMedias) = false
  · rw [if_pos h1]; decide
  rw [if_neg h1]
  by_cases h2 : e.genICEServersFailed = true
  · rw [if_pos h2]; decide
  rw [if_neg h2]
  by_cases h3 : e.pcNewFailed = true
  · rw [if_pos h3]; decide
  rw [if_neg h3]
  by_cases h4 : e.addTrackFailed = true
  · rw [if_pos h4]; decide
  rw [if_neg h4]
  by_cases h5 : e.setRemoteDescriptionFailed = true
  · rw [if_pos h5]; decide
  rw [if_neg h5]
  by_cases h6 : e.createAnswerFailed = true
  · rw [if_pos h6]; decide
  rw [if_neg h6]
  by_cases h7 : e.setLocalDescriptionFailed = true
  · rw [if_pos h7]; decide
  rw [if_neg h7]
  by_cases h8 : e.waitGatheringDoneFailed = true
  · rw [if_pos h8]; decide
  rw [if_neg h8]
  by_cases h9 : e.waitUntilConnectedFailed = true
  · rw [if_pos h9]; decide
  rw [if_neg h9]
  decide

theorem runPublish_consistent (e : PublishEnv) :
    outcomeConsistent (runPublish e) = true := by
  unfold runPublish
  cases he : e.addPublisherErr with
  | some be => exact publishBrokerOutcome_consistent be
  | none => exact runPublishAfterBroker_consistent e

theorem runRead_consistent (e : ReadEnv) :
    outcomeConsistent (runRead e) = true := by
  unfold runRead
  cases he : e.addReaderErr with
  | some be => exact readBrokerOutcome_consistent be
  | none => exact runReadAfterBroker_consistent e

theorem outcomeConsistent_length (o : RunOutcome)
    (h : outcomeConsistent o = true) : (sessionResponses o).length = 1 := by
  unfold outcomeConsistent at h
  unfold sessionResponses
  cases hA : o.answerWritten <;> by_cases hc : o.code = 0 <;> simp_all

/- ### C5: exactly one message on the new-session response channel -/

/-- C5: for every session whose NewSessionReq envelope was received by the
run loop, exactly one message is written to the envelope's response
channel: the answer (when writeAnswer ran, in which case runInner2 returns
status 0), or the error with its HTTP status (when runInner2 returns a
non-zero status); post-answer errors return status 0 and so produce no
second write. -/
theorem session_response_exactly_once :
    (∀ e : PublishEnv, (sessionResponses (runPublish e)).length = 1) ∧
    (∀ e : ReadEnv, (sessionResponses (runRead e)).length = 1) :=
  ⟨fun e => outcomeConsistent_length _ (runPublish_consistent e),
   fun e => outcomeConsistent_length _ (runRead_consistent e)⟩

/- ### C6: broker and ICE error to HTTP status mapping -/

/-- C6: authentication errors from the broker yield HTTP 401 preceded by the
webrtcPauseAfterAuthError sleep, in both the publish and the read role; in
the read role a non-authentication broker error whose message starts with
"no one is publishing" yields HTTP 404; any other broker error yields HTTP
400 (including publish-role errors whose message carries that prefix); and
an ICE-server generation failure yields HTTP 500 in both roles. -/
theorem broker_error_status_mapping :
    (∀ (e : PublishEnv) (be : BrokerErr), e.addPublisherErr = some be →
      be.isAuth = true →
      (runPublish e).code = 401 ∧ (runPublish e).slept = true) ∧
    (∀ (e : ReadEnv) (be : BrokerErr), e.addReaderErr = some be →
      be.isAuth = true →
      (runRead e).code = 401 ∧ (runRead e).slept = true) ∧
    (∀ (e : ReadEnv) (be : BrokerErr), e.addReaderErr = some be →
      be.isAuth = false → goHasPrefixOf noOnePublishing be.msg = true →
      (runRead e).code = 404) ∧
    (∀ (e : PublishEnv) (be : BrokerErr), e.addPublisherErr = some be →
      be.isAuth = false → (runPublish e).code = 400) ∧
    (∀ (e : ReadEnv) (be : BrokerErr), e.addReaderErr = some be →
      be.isAuth = false → goHasPrefixOf noOnePublishing be.msg = false →
      (runRead e).code = 400) ∧
    (∀ e : PublishEnv, e.addPublisherErr = none →
      e.genICEServersFailed = true → (runPublish e).code = 500) ∧
    (∀ e : ReadEnv, e.addReaderErr = none →
      exceptOk (webrtcGatherOutgoingTracks e.srcMedias) = true →
      e.genICEServersFailed = true → (runRead e).code = 500) := by
  refine ⟨?_, ?_, ?_, ?_, ?_, ?_, ?_⟩
  · intro e be he hauth
    unfold runPublish
    rw [he]
    show (publishBrokerOutcome be).code = 401 ∧ (publishBrokerOutcome be).slept = true
    unfold publishBrokerOutcome
    rw [if_pos hauth]
    exact ⟨rfl, rfl⟩
  · intro e be he hauth
    unfold runRead
    rw [he]
    show (readBrokerOutcome be).code = 401 ∧ (readBrokerOutcome be).slept = true
    unfold readBrokerOutcome
    rw [if_pos hauth]
    exact ⟨rfl, rfl⟩
  · intro e be he hauth hp
    unfold runRead
    rw [he]
    show (readBrokerOutcome be).code = 404
    unfold readBrokerOutcome
    rw [if_neg (by simp [hauth]), if_pos hp]
  · intro e be he hauth
    unfold runPublish
    rw [he]
    show (publishBrokerOutcome be).code = 400
    unfold publishBrokerOutcome
    rw [if_neg (by simp [hauth])]
  · intro e be he hauth hp
    unfold runRead
    rw [he]
    show (readBrokerOutcome be).code = 400
    unfold readBrokerOutcome
    rw [if_neg (by simp [hauth]), if_neg (by simp [hp])]
  · intro e he hg
    unfold runPublish
    rw [he]
    show (runPublishAfterBroker e).code = 500
    unfold runPublishAfterBroker
    rw [if_pos hg]
  · intro e he hok hg
    unfold runRead
    rw [he]
    show (runReadAfterBroker e).code = 500
    unfold runReadAfterBroker
    rw [if_neg (by simp [hok]), if_pos hg]

/-- Witness for broker_error_status_mapping at concrete inputs. -/
theorem broker_error_status_mapping_witness :
    ((runPublish { addPublisherErr := some { isAuth := true, msg := [] } }).code
      = 401 ∧
     (runPublish { addPublisherErr := some { isAuth := true, msg := [] } }).slept
      = true) ∧
    (runRead { addReaderErr := some { isAuth := false, msg := ("no one is publishing on path mypath".data) } }).code = 404 ∧
    (runPublish { addPublisherErr := some { isAuth := false, msg := ("bad offer".data) } }).code = 400 ∧
    (runPublish { genICEServersFailed := true }).code = 500 ∧
    (runRead { srcMedias := [Codec.h264], genICEServersFailed := true }).code
      = 500 :=
  ⟨broker_error_status_mapping.1
      { addPublisherErr := some { isAuth := true, msg := [] } }
      { isAuth := true, msg := [] } rfl rfl,
   broker_error_status_mapping.2.2.1
      { addReaderErr := some { isAuth := false, msg := ("no one is publishing on path mypath".data) } }
      { isAuth := false, msg := ("no one is publishing on path mypath".data) }
      rfl rfl (by decide),
   broker_error_status_mapping.2.2.2.1
      { addPublisherErr := some { isAuth := false, msg := ("bad offer".data) } }
      { isAuth := false, msg := ("bad offer".data) } rfl rfl,
   broker_error_status_mapping.2.2.2.2.2.1
      { genICEServersFailed := true } rfl rfl,
   broker_error_status_mapping.2.2.2.2.2.2
      { srcMedias := [Codec.h264], genICEServersFailed := true }
      rfl (by decide) rfl⟩

/- ### C8: answer emission versus the pc field -/

/-- C8 counterexample: a publish session for which every negotiation step up
to WaitGatheringDone succeeds but webrtcWaitUntilConnected fails emits the
SDP answer, then runs to termination with status 0 and the pc field still
nil: the claim that pc is non-nil from answer emission until cancellation
fails on it. -/
theorem answer_without_pc :
    (runPublish { waitUntilConnectedFailed := true }).answerWritten = true ∧
    (runPublish { waitUntilConnectedFailed := true }).pcSet = false ∧
    (runPublish { waitUntilConnectedFailed := true }).code = 0 := by
  decide

theorem outcomeConsistent_pc (o : RunOutcome)
    (h : outcomeConsistent o = true) (hp : o.pcSet = true) :
    o.answerWritten = true := by
  unfold outcomeConsistent at h
  cases hA : o.answerWritten <;> simp_all

/-- C8 amended: the pc field is published only after the answer was emitted,
and never when webrtcWaitUntilConnected fails: every session state with pc
set has emitted the answer, while a session may emit the answer and
terminate with pc still nil. -/
theorem pc_set_implies_answer :
    (∀ e : PublishEnv, (runPublish e).pcSet = true →
      (runPublish e).answerWritten = true) ∧
    (∀ e : PublishEnv, e.waitUntilConnectedFailed = true →
      (runPublish e).pcSet = false) ∧
    (∀ e : ReadEnv, (runRead e).pcSet = true →
      (runRead e).answerWritten = true) ∧
    (∀ e : ReadEnv, e.waitUntilConnectedFailed = true →
      (runRead e).pcSet = false) := by
  refine ⟨fun e => outcomeConsistent_pc _ (runPublish_consistent e), ?_,
    fun e => outcomeConsistent_pc _ (runRead_consistent e), ?_⟩
  · intro e hw
    unfold runPublish
    cases he : e.addPublisherErr with
    | some be =>
      show (publishBrokerOutcome be).pcSet = false
      unfold publishBrokerOutcome
      by_cases hb : be.isAuth = true
      · rw [if_pos hb]
      rw [if_neg hb]
    | none =>
      show (runPublishAfterBroker e).pcSet = false
      unfold runPublishAfterBroker
      by_cases g1 : e.genICEServersFailed = true
      · rw [if_pos g1]
      rw [if_neg g1]
      by_cases g2 : e.pcNewFailed = true
      · rw [if_pos g2]
      rw [if_neg g2]
      by_cases g3 : e.sdpUnmarshalFailed = true
      · rw [if_pos g3]
      rw [if_neg g3]
      by_cases g4 : exceptOk (webrtcTrackCount e.offerMedias) = false
      · rw [if_pos g4]
      rw [if_neg g4]
      by_cases g5 : e.addTransceiverVideoFailed = true
      · rw [if_pos g5]
      rw [if_neg g5]
      by_cases g6 : e.addTransceiverAudioFailed = true
      · rw [if_pos g6]
      rw [if_neg g6]
      by_cases g7 : e.setRemoteDescriptionFailed = true
      · rw [if_pos g7]
      rw [if_neg g7]
      by_cases g8 : e.createAnswerFailed = true
      · rw [if_pos g8]
      rw [if_neg g8]
      by_cases g9 : e.setLocalDescriptionFailed = true
      · rw [if_pos g9]
      rw [if_neg g9]
      by_cases g10 : e.waitGatheringDoneFailed = true
      · rw [if_pos g10]
      rw [if_neg g10]
      rw [if_pos hw]
  · intro e hw
    unfold runRead
    cases he : e.addReaderErr with
    | some be =>
      show (readBrokerOutcome be).pcSet = false
      unfold readBrokerOutcome
      by_cases hb : be.isAuth = true
      · rw [if_pos hb]
      rw [if_neg hb]
      by_cases hp : goHasPrefixOf noOnePublishing be.msg = true
      · rw [if_pos hp]
      rw [if_neg hp]
    | none =>
      show (runReadAfterBroker e).pcSet = false
      unfold runReadAfterBroker
      by_cases g1 : exceptOk (webrtcGatherOutgoingTracks e.srcMedias) = false
      · rw [if_pos g1]
      rw [if_neg g1]
      by_cases g2 : e.genICEServersFailed = true
      · rw [if_pos g2]
      rw [if_neg g2]
      by_cases g3 : e.pcNewFailed = true
      · rw [if_pos g3]
      rw [if_neg g3]
      by_cases g4 : e.addTrackFailed = true
      · rw [if_pos g4]
      rw [if_neg g4]
      by_cases g5 : e.setRemoteDescriptionFailed = true
      · rw [if_pos g5]
      rw [if_neg g5]
      by_cases g6 : e.createAnswerFailed = true
      · rw [if_pos g6]
      rw [if_neg g6]
      by_cases g7 : e.setLocalDescriptionFailed = true
      · rw [if_pos g7]
      rw [if_neg g7]
      by_cases g8 : e.waitGatheringDoneFailed = true
      · rw [if_pos g8]
      rw [if_neg g8]
      rw [if_pos hw]

/-- Witness for pc_set_implies_answer at concrete inputs. -/
theorem pc_set_implies_answer_witness :
    (runPublish {}).answerWritten = true ∧
    (runPublish { waitUntilConnectedFailed := true }).pcSet = false ∧
    (runRead { srcMedias := [Codec.opus] }).answerWritten = true ∧
    (runRead { srcMedias := [Codec.opus], waitUntilConnectedFailed := true }).pcSet = false :=
  ⟨pc_set_implies_answer.1 {} (by decide),
   pc_set_implies_answer.2.1 { waitUntilConnectedFailed := true } rfl,
   pc_set_implies_answer.2.2.1 { srcMedias := [Codec.opus] } (by decide),
   pc_set_implies_answer.2.2.2 { srcMedias := [Codec.opus], waitUntilConnectedFailed := true } rfl⟩

/- ### C7: outgoing track gather and its supported codecs -/

theorem video_not_audio (c : Codec) (h : isSupportedVideoCodec c = true) :
    isSupportedAudioCodec c = false := by
  cases c <;> simp_all [isSupportedVideoCodec, isSupportedAudioCodec]

theorem audio_not_video (c : Codec) (h : isSupportedAudioCodec c = true) :
    isSupportedVideoCodec c = false := by
  cases c <;> simp_all [isSupportedVideoCodec, isSupportedAudioCodec]

theorem gatherOut_eq (medias : List Codec) :
    webrtcGatherOutgoingTracks medias =
      match medias.find? isSupportedVideoCodec,
          medias.find? isSupportedAudioCodec with
      | none, none => Except.error GatherOutErr.noSupportedCodec
      | some v, none => Except.ok [⟨v⟩]
      | none, some a => Except.ok [⟨a⟩]
      | some v, some a => Except.ok [⟨v⟩, ⟨a⟩] := by
  unfold webrtcGatherOutgoingTracks newWebRTCOutgoingTrackVideo
    newWebRTCOutgoingTrackAudio
  cases hv : medias.find? isSupportedVideoCodec <;>
    cases ha : medias.find? isSupportedAudioCodec <;> simp

/-- C7: gathering outgoing tracks fails, with the error naming the supported
codecs AV1, VP9, VP8, H264, Opus, G722, G711, exactly when no media of the
source carries a supported video codec and none carries a supported audio
codec; on success it returns at most one video track and at most one audio
track, each built from the first supported codec of its kind; and the read
path maps the gather failure to HTTP 400. -/
theorem gatherOutgoingTracks_spec :
    (∀ medias : List Codec,
      webrtcGatherOutgoingTracks medias =
          Except.error GatherOutErr.noSupportedCodec ↔
        ∀ c ∈ medias, isSupportedVideoCodec c = false ∧
          isSupportedAudioCodec c = false) ∧
    (∀ (medias : List Codec) (ts : List webRTCOutgoingTrack),
      webrtcGatherOutgoingTracks medias = Except.ok ts →
      ts.length ≤ 2 ∧
      (ts.filter (fun t => isSupportedVideoCodec t.codec)).length ≤ 1 ∧
      (ts.filter (fun t => isSupportedAudioCodec t.codec)).length ≤ 1 ∧
      (∀ t ∈ ts, isSupportedVideoCodec t.codec = true →
        medias.find? isSupportedVideoCodec = some t.codec) ∧
      (∀ t ∈ ts, isSupportedAudioCodec t.codec = true →
        medias.find? isSupportedAudioCodec = some t.codec)) ∧
    (∀ e : ReadEnv, e.addReaderErr = none →
      exceptOk (webrtcGatherOutgoingTracks e.srcMedias) = false →
      (runRead e).code = 400) := by
  refine ⟨fun medias => ?_, fun medias ts h => ?_, fun e he hg => ?_⟩
  · rw [gatherOut_eq]
    rcases hv : medias.find? isSupportedVideoCodec with _ | v <;>
      rcases ha : medias.find? isSupportedAudioCodec with _ | a
    · simp only []
      constructor
      · intro _ c hc
        have h1 := List.find?_eq_none.mp hv c hc
        have h2 := List.find?_eq_none.mp ha c hc
        exact ⟨by simpa using h1, by simpa using h2⟩
      · intro _; trivial
    · simp only []
      constructor
      · intro hcon; cases hcon
      · intro hall
        have := List.find?_some ha
        have h2 := (hall a (List.mem_of_find?_eq_some ha)).2
        rw [this] at h2; cases h2
    · simp only []
      constructor
      · intro hcon; cases hcon
      · intro hall
        have := List.find?_some hv
        have h2 := (hall v (List.mem_of_find?_eq_some hv)).1
        rw [this] at h2; cases h2
    · simp only []
      constructor
      · intro hcon; cases hcon
      · intro hall
        have := List.find?_some hv
        have h2 := (hall v (List.mem_of_find?_eq_some hv)).1
        rw [this] at h2; cases h2
  · rw [gatherOut_eq] at h
    rcases hv : medias.find? isSupportedVideoCodec with _ | v <;>
      rcases ha : medias.find? isSupportedAudioCodec with _ | a <;>
      rw [hv, ha] at h <;> simp only [] at h
    · cases h
    · have has := List.find?_some ha
      have hav : isSupportedVideoCodec a = false := audio_not_video a has
      cases h
      refine ⟨by simp, ?_, ?_, ?_, ?_⟩
      · simp [List.filter_cons, hav]
      · simp [List.filter_cons, has]
      · intro t ht htv
        rcases List.mem_cons.mp ht with rfl | ht2
        · rw [hav] at htv; cases htv
        · cases ht2
      · intro t ht hta
        rcases List.mem_cons.mp ht with rfl | ht2
        · rfl
        · cases ht2
    · have hvs := List.find?_some hv
      have hva : isSupportedAudioCodec v = false := video_not_audio v hvs
      cases h
      refine ⟨by simp, ?_, ?_, ?_, ?_⟩
      · simp [List.filter_cons, hvs]
      · simp [List.filter_cons, hva]
      · intro t ht htv
        rcases List.mem_cons.mp ht with rfl | ht2
        · rfl
        · cases ht2
      · intro t ht hta
        rcases List.mem_cons.mp ht with rfl | ht2
        · rw [hva] at hta; cases hta
        · cases ht2
    · have hvs := List.find?_some hv
      have has := List.find?_some ha
      have hva : isSupportedAudioCodec v = false := video_not_audio v hvs
      have hav : isSupportedVideoCodec a = false := audio_not_video a has
      cases h
      refine ⟨by simp, ?_, ?_, ?_, ?_⟩
      · simp [List.filter_cons, hvs, hav]
      · simp [List.filter_cons, has, hva]
      · intro t ht htv
        rcases List.mem_cons.mp ht with rfl | ht2
        · rfl
        rcases List.mem_cons.mp ht2 with rfl | ht3
        · rw [hav] at htv; cases htv
        · cases ht3
      · intro t ht hta
        rcases List.mem_cons.mp ht with rfl | ht2
        · rw [hva] at hta; cases hta
        rcases List.mem_cons.mp ht2 with rfl | ht3
        · rfl
        · cases ht3
  · unfold runRead
    rw [he]
    show (runReadAfterBroker e).code = 400
    unfold runReadAfterBroker
    rw [if_pos hg]

/-- Witness for gatherOutgoingTracks_spec at concrete inputs. -/
theorem gatherOutgoingTracks_spec_witness :
    (webrtcGatherOutgoingTracks [Codec.other "mp3"] =
        Except.error GatherOutErr.noSupportedCodec) ∧
    ([⟨Codec.h264⟩, ⟨Codec.opus⟩] : List webRTCOutgoingTrack).length ≤ 2 ∧
    (runRead {}).code = 400 :=
  ⟨(gatherOutgoingTracks_spec.1 [Codec.other "mp3"]).mpr (by decide),
   (gatherOutgoingTracks_spec.2.1 [Codec.h264, Codec.opus]
     [⟨Codec.h264⟩, ⟨Codec.opus⟩] (by decide)).1,
   gatherOutgoingTracks_spec.2.2 {} rfl (by decide)⟩

/- ### slug and storage naming (webrtc_room.go record/cleanup, and the OnClose upload of src/unnamed/part_000) -/

/-- ASCII whitespace stripped by Go strings.TrimSpace (the ASCII subset of
unicode.IsSpace): space, tab, newline, vertical tab, form feed, carriage
return. -/
def isGoSpace (c : Char) : Bool :=
  c.toNat == 32 || c.toNat == 9 || c.toNat == 10 ||
    c.toNat == 11 || c.toNat == 12 || c.toNat == 13

/-- ASCII fragment of Go strings.ToLower: capital letters A-Z map to their
lowercase forms, everything else is unchanged.  Every character the sources
feed through ToLower in the claims is covered by this fragment. -/
def goToLower (c : Char) : Char :=
  if 65 ≤ c.toNat ∧ c.toNat ≤ 90 then Char.ofNat (c.toNat + 32) else c

/-- Go strings.ToLower over a character list. -/
def strToLower (s : List Char) : List Char := s.map goToLower

/-- Go strings.TrimSpace over a character list. -/
def strTrimSpace (s : List Char) : List Char :=
  ((s.dropWhile isGoSpace).reverse.dropWhile isGoSpace).reverse

/-- Go strings.ReplaceAll(s, " ", "-"): the pattern is a single character,
so the replacement is a character-wise map. -/
def strReplaceSpaceDash (s : List Char) : List Char :=
  s.map (fun c => if c = ' ' then '-' else c)

/-- The slug expression of the OnClose metadata upload (src/unnamed/part_000
line 415): strings.ReplaceAll(strings.TrimSpace(strings.ToLower(club)), " ", "-"). -/
def slugChars (s : List Char) : List Char :=
  strReplaceSpaceDash (strTrimSpace (strToLower s))

/-- The slug formula exactly as the spec writes it:
lowercase(trim(s)).replace(" ", "-"), trimming before lowering. -/
def slugSpecChars (s : List Char) : List Char :=
  strReplaceSpaceDash (strToLower (strTrimSpace s))

theorem toNat_ofNat_valid (n : Nat) (h : n.isValidChar) :
    (Char.ofNat n).toNat = n := by
  rw [Char.ofNat, dif_pos h]
  rfl

theorem isGoSpace_false_of_letter (c : Char) (h : 65 ≤ c.toNat) :
    isGoSpace c = false := by
  unfold isGoSpace
  simp only [Bool.or_eq_false_iff, beq_eq_false_iff_ne, ne_eq]
  omega

theorem isGoSpace_goToLower (c : Char) :
    isGoSpace (goToLower c) = isGoSpace c := by
  unfold goToLower
  by_cases h : 65 ≤ c.toNat ∧ c.toNat ≤ 90
  · rw [if_pos h]
    have ht : (Char.ofNat (c.toNat + 32)).toNat = c.toNat + 32 :=
      toNat_ofNat_valid _ (Or.inl (by omega))
    have h2 : isGoSpace (Char.ofNat (c.toNat + 32)) = false := by
      apply isGoSpace_false_of_letter
      rw [ht]
      omega
    rw [h2, isGoSpace_false_of_letter c (by omega)]
  · rw [if_neg h]

theorem strTrimSpace_strToLower (s : List Char) :
    strTrimSpace (strToLower s) = strToLower (strTrimSpace s) := by
  have hcomp : isGoSpace ∘ goToLower = isGoSpace := funext isGoSpace_goToLower
  unfold strTrimSpace strToLower
  rw [List.dropWhile_map, hcomp, ← List.map_reverse, List.dropWhile_map,
    hcomp, ← List.map_reverse]

theorem slugChars_eq_slugSpecChars (s : List Char) :
    slugChars s = slugSpecChars s := by
  unfold slugChars slugSpecChars
  rw [strTrimSpace_strToLower]

/-- C9: the slug used for bucket naming in the OnClose upload equals the
spec formula lowercase(trim(s)) with each space turned into a dash and no
other normalization, and on "FC Barça Club " it yields "fc-barça-club". -/
theorem slug_matches_spec :
    (∀ s : List Char, slugChars s = slugSpecChars s) ∧
    slugChars ("FC Barça Club ".data) = "fc-barça-club".data :=
  ⟨slugChars_eq_slugSpecChars, by decide⟩

/-- Bucket name used by Room.record (src/internal/core/webrtc_room.go line
99): strings.ToLower(clubName) with no trimming and no space replacement. -/
def recordBucketName (clubName : List Char) : List Char := strToLower clubName

/-- Bucket name used by the Room.cleanup upload goroutines (line 123):
strings.ToLower(clubName), same as record. -/
def cleanupBucketName (clubName : List Char) : List Char := strToLower clubName

/-- Bucket name used by the data channel OnClose upload (part_000 line
415): the full slug. -/
def onCloseBucketName (clubName : List Char) : List Char := slugChars clubName

/-- Go filepath.Base restricted to slash-separated paths: the empty path
gives ".", a path of only slashes gives "/", otherwise the last element of
the path after stripping trailing slashes. -/
def filepathBase (p : List Char) : List Char :=
  if p = [] then ['.']
  else
    let q := (p.reverse.dropWhile (fun c => c == '/')).reverse
    if q = [] then ['/']
    else (q.reverse.takeWhile (fun c => !(c == '/'))).reverse

/-- Object key of the Room.cleanup upload (webrtc_room.go line 124):
fmt.Sprintf("%s/%s", eventName, filepath.Base(filename)). -/
def cleanupObjectKey (eventName filename : List Char) : List Char :=
  eventName ++ ['/'] ++ filepathBase filename

/-- Object key of the OnClose metadata upload (part_000 line 416): the same
Sprintf("%s/%s", eventName, filepath.Base(filename)). -/
def onCloseObjectKey (eventName filename : List Char) : List Char :=
  eventName ++ ['/'] ++ filepathBase filename

/-- C3 counterexample: with clubName "FC Barça Club ", Room.record and the
Room.cleanup uploads use bucket "fc barça club " (lowercase only), which
differs from slug(clubName) = "fc-barça-club"; the claim that every
recording upload uses bucket slug(clubName) fails on them. -/
theorem record_bucket_not_slug :
    recordBucketName ("FC Barça Club ".data) = "fc barça club ".data ∧
    cleanupBucketName ("FC Barça Club ".data) = "fc barça club ".data ∧
    onCloseBucketName ("FC Barça Club ".data) = "fc-barça-club".data ∧
    recordBucketName ("FC Barça Club ".data) ≠
      onCloseBucketName ("FC Barça Club ".data) := by
  decide

/-- C3 amended: only the OnClose metadata upload uses bucket slug(clubName);
Room.record and Room.cleanup use lowercase(clubName) unchanged (no trim, no
space replacement), the two agreeing with each other; and the object key is
eventName ++ "/" ++ basename(file) at both upload sites. -/
theorem bucket_and_key_shapes :
    (∀ club : List Char, onCloseBucketName club = slugSpecChars club) ∧
    (∀ club : List Char, recordBucketName club = strToLower club ∧
      cleanupBucketName club = recordBucketName club) ∧
    (∀ ev fn : List Char,
      cleanupObjectKey ev fn = ev ++ ['/'] ++ filepathBase fn ∧
      onCloseObjectKey ev fn = cleanupObjectKey ev fn) :=
  ⟨fun club => slugChars_eq_slugSpecChars club,
   fun _ => ⟨rfl, rfl⟩, fun _ _ => ⟨rfl, rfl⟩⟩

/- ### C10: apiItem snapshot before pc is published (src lines 698-733) -/

/-- View of the peer connection as read by apiItem. -/
structure PCView where
  localCandidate : String
  remoteCandidate : String
  bytesReceived : Nat
  bytesSent : Nat
deriving DecidableEq

/-- The session fields apiItem reads (under the RW lock). -/
structure SessionView where
  uuid : Nat
  created : Nat
  remoteAddr : String
  publish : Bool
  pathName : String
  pc : Option PCView
deriving DecidableEq

/-- API session state: publish or read, from the request's publish flag. -/
inductive ApiSessionState where
  | statePublish : ApiSessionState
  | stateRead : ApiSessionState
deriving DecidableEq

/-- The API snapshot record returned by apiItem. -/
structure ApiWebRTCSession where
  id : Nat
  created : Nat
  remoteAddr : String
  peerConnectionEstablished : Bool
  localCandidate : String
  remoteCandidate : String
  state : ApiSessionState
  path : String
  bytesReceived : Nat
  bytesSent : Nat
deriving DecidableEq

/-- apiItem: the five mutable outputs default to false, "", "", 0, 0 and
are overridden only when s.pc is non-nil. -/
def apiItem (s : SessionView) : ApiWebRTCSession :=
  match s.pc with
  | none =>
    { id := s.uuid, created := s.created, remoteAddr := s.remoteAddr,
      peerConnectionEstablished := false, localCandidate := "",
      remoteCandidate := "",
      state := if s.publish then ApiSessionState.statePublish
        else ApiSessionState.stateRead,
      path := s.pathName, bytesReceived := 0, bytesSent := 0 }
  | some pc =>
    { id := s.uuid, created := s.created, remoteAddr := s.remoteAddr,
      peerConnectionEstablished := true,
      localCandidate := pc.localCandidate,
      remoteCandidate := pc.remoteCandidate,
      state := if s.publish then ApiSessionState.statePublish
        else ApiSessionState.stateRead,
      path := s.pathName, bytesReceived := pc.bytesReceived,
      bytesSent := pc.bytesSent }

/-- C10: before pc is published (pc = nil), apiItem reports
PeerConnectionEstablished false, empty local and remote candidate strings
and zero byte counters, while still reporting the session id, creation
time, remote address, role and path. -/
theorem apiItem_before_pc (s : SessionView) (h : s.pc = none) :
    apiItem s =
      { id := s.uuid, created := s.created, remoteAddr := s.remoteAddr,
        peerConnectionEstablished := false, localCandidate := "",
        remoteCandidate := "",
        state := if s.publish then ApiSessionState.statePublish
          else ApiSessionState.stateRead,
        path := s.pathName, bytesReceived := 0, bytesSent := 0 } := by
  unfold apiItem
  rw [h]

/-- Witness for apiItem_before_pc at a concrete session. -/
theorem apiItem_before_pc_witness :
    apiItem
      { uuid := 7, created := 3, remoteAddr := "10.0.0.1:5000",
        publish := true, pathName := "stream1", pc := none } =
      { id := 7, created := 3, remoteAddr := "10.0.0.1:5000",
        peerConnectionEstablished := false, localCandidate := "",
        remoteCandidate := "",
        state := ApiSessionState.statePublish, path := "stream1",
        bytesReceived := 0, bytesSent := 0 } := by
  rw [apiItem_before_pc _ rfl]
  rfl
